import Mathlib

/-!
Verification of the event-guest-guardian seating-layout editor and check-in
view against its specification.

The definitions below are a shallow embedding of the TypeScript source:

 * Seat / Table mirror the in-memory interfaces of src/pages/TableManager.tsx.
 * Numbers (coordinates, angles) are embedded as rationals; every arithmetic
   expression is copied verbatim from the source.
 * The per-table body of each collection operation (the arrow function passed
   to tables.map in the source) is a named helper (addSeatTable, ...), and the
   collection operation is List.map of that helper, exactly as in the source.
-/

/-- In-memory seat, from the Seat interface of TableManager.tsx.
Optional string fields of the interface are embedded as Option String
(undefined becomes none). -/
structure Seat where
  id : String
  angle : ℚ
  guestName : Option String
  tag : Option String
  note : Option String
deriving Repr, DecidableEq

/-- In-memory table, from the Table interface of TableManager.tsx.
The optional selected flag is never assigned anywhere in the source, so it is
omitted. -/
structure Table where
  id : String
  number : ℕ
  label : String
  x : ℚ
  y : ℚ
  seats : List Seat
deriving Repr, DecidableEq

/-- Seat id string built in createTable and addSeat of TableManager.tsx. -/
def seatId (number : ℕ) (i : ℕ) : String :=
  "seat-" ++ toString number ++ "-" ++ toString i

/-- createTable from TableManager.tsx line 354: ten seats at angles i*360/10. -/
def createTable (number : ℕ) (x y : ℚ) : Table :=
  { id := "table-" ++ toString number
    number := number
    label := "Table " ++ toString number
    x := x
    y := y
    seats := (List.range 10).map (fun i =>
      { id := seatId number i
        angle := ((i : ℚ) * 360) / 10
        guestName := none
        tag := none
        note := none }) }

/-- Helper for redistribute: walks the seat list carrying the running index k,
modelling newSeats.forEach((seat, index) => seat.angle = index*360/length)
where n is the length of the array being walked. -/
def redistributeAux (n : ℕ) : ℕ → List Seat → List Seat
  | _, [] => []
  | k, s :: rest =>
      { s with angle := ((k : ℚ) * 360) / (n : ℚ) } :: redistributeAux n (k + 1) rest

/-- Angle redistribution loop of addSeat / removeSeat in TableManager.tsx:
seat i of n receives angle i*360/n. -/
def redistribute (seats : List Seat) : List Seat :=
  redistributeAux seats.length 0 seats

/-- Per-table body of addSeat (TableManager.tsx lines 449-467): if the table
matches and has fewer than 14 seats, push one more seat (with the provisional
angle written by the source before the redistribution loop) and redistribute
all angles; otherwise leave the table untouched. -/
def addSeatTable (tableId : String) (table : Table) : Table :=
  if table.id = tableId ∧ table.seats.length < 14 then
    { table with seats := redistribute (table.seats ++
        [{ id := seatId table.number table.seats.length
           angle := ((table.seats.length : ℚ) * 360) / ((table.seats.length : ℚ) + 1)
           guestName := none
           tag := none
           note := none }]) }
  else table

/-- addSeat from TableManager.tsx lines 449-476, acting on the collection. -/
def addSeat (tableId : String) (tables : List Table) : List Table :=
  tables.map (addSeatTable tableId)

/-- Per-table body of removeSeat (TableManager.tsx lines 478-491): if the
table matches and has more than one seat, drop the last seat (slice(0, -1))
and redistribute the angles; otherwise leave the table untouched. -/
def removeSeatTable (tableId : String) (table : Table) : Table :=
  if table.id = tableId ∧ 1 < table.seats.length then
    { table with seats := redistribute table.seats.dropLast }
  else table

/-- removeSeat from TableManager.tsx lines 478-500, acting on the collection. -/
def removeSeat (tableId : String) (tables : List Table) : List Table :=
  tables.map (removeSeatTable tableId)

/-- Spec-side predicate: seat j of the list sits at angle 360*j/n where n is
the seat count. -/
def evenlySpaced (seats : List Seat) : Prop :=
  ∀ (j : ℕ) (s : Seat), seats[j]? = some s → s.angle = ((j : ℚ) * 360) / (seats.length : ℚ)

lemma redistributeAux_length (n : ℕ) : ∀ k l, (redistributeAux n k l).length = l.length := by
  intro k l
  induction l generalizing k with
  | nil => rfl
  | cons s rest ih => simp [redistributeAux, ih]

lemma redistributeAux_getElem? (n : ℕ) :
    ∀ (l : List Seat) (k j : ℕ),
      (redistributeAux n k l)[j]? =
        (l[j]?).map (fun s => { s with angle := (((k + j : ℕ) : ℚ) * 360) / (n : ℚ) }) := by
  intro l
  induction l with
  | nil => intro k j; simp [redistributeAux]
  | cons s rest ih =>
      intro k j
      cases j with
      | zero => simp [redistributeAux]
      | succ j' =>
          simp only [redistributeAux, List.getElem?_cons_succ, ih (k + 1) j']
          have : k + 1 + j' = k + (j' + 1) := by omega
          rw [this]

lemma redistribute_length (seats : List Seat) :
    (redistribute seats).length = seats.length :=
  redistributeAux_length seats.length 0 seats

lemma redistribute_evenlySpaced (seats : List Seat) :
    evenlySpaced (redistribute seats) := by
  intro j s hs
  rw [redistribute, redistributeAux_getElem?] at hs
  rcases Option.map_eq_some'.mp hs with ⟨s0, hs0, rfl⟩
  simp [redistribute_length, Nat.zero_add]

/-- C1 — For every table and every seat-count change from N to M seats
(1 ≤ N, M ≤ 14) performed by addSeat or removeSeat, every seat at index i in
[0, M) has angle exactly 360*i/M after the change. The hypotheses express
that the operation actually changes the seat count (the guards of the
source: fewer than 14 seats for addSeat, more than one seat for removeSeat);
evenlySpaced states angle = 360*i/M for every index i of the new seat list. -/
theorem seat_angles_even_after_change (tables : List Table) (tableId : String)
    (i : ℕ) (t : Table) (hget : tables[i]? = some t) (hid : t.id = tableId) :
    (t.seats.length < 14 →
      ∃ t', (addSeat tableId tables)[i]? = some t' ∧
        t'.seats.length = t.seats.length + 1 ∧ evenlySpaced t'.seats) ∧
    (1 < t.seats.length →
      ∃ t', (removeSeat tableId tables)[i]? = some t' ∧
        t'.seats.length = t.seats.length - 1 ∧ evenlySpaced t'.seats) := by
  constructor
  · intro hlt
    refine ⟨addSeatTable tableId t, ?_, ?_, ?_⟩
    · rw [addSeat, List.getElem?_map, hget]; rfl
    · rw [addSeatTable, if_pos ⟨hid, hlt⟩]
      simp [redistribute_length]
    · rw [addSeatTable, if_pos ⟨hid, hlt⟩]
      exact redistribute_evenlySpaced _
  · intro hgt
    refine ⟨removeSeatTable tableId t, ?_, ?_, ?_⟩
    · rw [removeSeat, List.getElem?_map, hget]; rfl
    · rw [removeSeatTable, if_pos ⟨hid, hgt⟩]
      simp [redistribute_length]
    · rw [removeSeatTable, if_pos ⟨hid, hgt⟩]
      exact redistribute_evenlySpaced _

/-- Witness for seat_angles_even_after_change: a concrete one-table layout
with 10 seats, below the 14-seat cap and above the 1-seat floor. -/
theorem seat_angles_even_after_change_witness :
    ([createTable 1 100 100][0]? = some (createTable 1 100 100)) ∧
    ((createTable 1 100 100).id = "table-1") ∧
    ((createTable 1 100 100).seats.length < 14) ∧
    (1 < (createTable 1 100 100).seats.length) ∧
    (∃ t', (addSeat "table-1" [createTable 1 100 100])[0]? = some t' ∧
      t'.seats.length = (createTable 1 100 100).seats.length + 1 ∧ evenlySpaced t'.seats) ∧
    (∃ t', (removeSeat "table-1" [createTable 1 100 100])[0]? = some t' ∧
      t'.seats.length = (createTable 1 100 100).seats.length - 1 ∧ evenlySpaced t'.seats) := by
  refine ⟨rfl, rfl, by decide, by decide, ?_, ?_⟩
  · exact (seat_angles_even_after_change [createTable 1 100 100] "table-1" 0
      (createTable 1 100 100) rfl rfl).1 (by decide)
  · exact (seat_angles_even_after_change [createTable 1 100 100] "table-1" 0
      (createTable 1 100 100) rfl rfl).2 (by decide)

/-- C2 — For every table with exactly 14 seats, addSeat leaves the table
unchanged, and for every table with exactly 1 seat, removeSeat leaves the
table unchanged: the guards of the source fail, so the map returns the table
itself. -/
theorem seat_ops_noop_at_bounds (t : Table) (tableId : String) :
    (t.seats.length = 14 → addSeatTable tableId t = t) ∧
    (t.seats.length = 1 → removeSeatTable tableId t = t) := by
  constructor
  · intro h14
    rw [addSeatTable, if_neg]
    rintro ⟨-, hlt⟩
    omega
  · intro h1
    rw [removeSeatTable, if_neg]
    rintro ⟨-, hgt⟩
    omega

/-- Concrete table with exactly 14 seats, used by the witness below. -/
def fullTable : Table :=
  { id := "table-1"
    number := 1
    label := "Table 1"
    x := 100
    y := 100
    seats := (List.range 14).map (fun i =>
      { id := seatId 1 i
        angle := ((i : ℚ) * 360) / 14
        guestName := none
        tag := none
        note := none }) }

/-- Concrete table with exactly 1 seat, used by the witness below. -/
def tinyTable : Table :=
  { id := "table-2"
    number := 2
    label := "Table 2"
    x := 200
    y := 200
    seats := [{ id := seatId 2 0, angle := 0, guestName := none, tag := none, note := none }] }

/-- Witness for seat_ops_noop_at_bounds at a 14-seat and a 1-seat table. -/
theorem seat_ops_noop_at_bounds_witness :
    (fullTable.seats.length = 14) ∧ addSeatTable "table-1" fullTable = fullTable ∧
    (tinyTable.seats.length = 1) ∧ removeSeatTable "table-2" tinyTable = tinyTable := by
  refine ⟨by decide, ?_, by decide, ?_⟩
  · exact (seat_ops_noop_at_bounds fullTable "table-1").1 (by decide)
  · exact (seat_ops_noop_at_bounds tinyTable "table-2").2 (by decide)

/-- Clamp of the x coordinate from the drag branch of handleMouseMove
(TableManager.tsx line 422): Math.max(50, Math.min(1150, newX)). -/
def clampX (x : ℚ) : ℚ := max 50 (min 1150 x)

/-- Clamp of the y coordinate from the drag branch of handleMouseMove
(TableManager.tsx line 422): Math.max(50, Math.min(750, newY)). -/
def clampY (y : ℚ) : ℚ := max 50 (min 750 y)

/-- Per-table body of the setTables update inside handleMouseMove: the dragged
table receives the clamped coordinates, every other table is untouched. -/
def moveTableTable (tableId : String) (newX newY : ℚ) (table : Table) : Table :=
  if table.id = tableId then { table with x := clampX newX, y := clampY newY } else table

/-- Position update of handleMouseMove (TableManager.tsx lines 416-425),
acting on the collection. -/
def moveTable (tableId : String) (newX newY : ℚ) (tables : List Table) : List Table :=
  tables.map (moveTableTable tableId newX newY)

/-- The region positions are clamped to: x in [50, 1150], y in [50, 750]
(the 1200 x 800 canvas minus the 50-pixel margin enforced by the source). -/
def inBounds (x y : ℚ) : Prop := 50 ≤ x ∧ x ≤ 1150 ∧ 50 ≤ y ∧ y ≤ 750

/-- Squared Euclidean distance between two points. -/
def dist2 (px py qx qy : ℚ) : ℚ := (px - qx) ^ 2 + (py - qy) ^ 2

lemma clamp_coord_nearest (lo hi x q : ℚ) (hlo : lo ≤ q) (hhi : q ≤ hi) :
    (max lo (min hi x) - x) ^ 2 ≤ (q - x) ^ 2 := by
  rcases le_total x lo with hxlo | hlox
  · have hmin : min hi x = x := min_eq_right (hxlo.trans (hlo.trans hhi))
    rw [hmin, max_eq_left hxlo]
    nlinarith [mul_nonneg (sub_nonneg.2 hlo) (sub_nonneg.2 hxlo)]
  · rcases le_total x hi with hxhi | hhix
    · rw [min_eq_right hxhi, max_eq_right hlox]
      nlinarith [sq_nonneg (q - x)]
    · rw [min_eq_left hhix, max_eq_right (hlo.trans hhi)]
      nlinarith [mul_nonneg (sub_nonneg.2 hhi) (sub_nonneg.2 hhix)]

/-- C3 — Moving a table to a target (newX, newY): the stored position becomes
the clamp of the target, which lies in bounds, equals the target exactly
whenever the target is in bounds, and otherwise is the nearest in-bounds
point (no in-bounds point is closer to the target). -/
theorem moveTable_clamps_to_nearest (tables : List Table) (tableId : String)
    (newX newY : ℚ) (i : ℕ) (t : Table) (hget : tables[i]? = some t) (hid : t.id = tableId) :
    ∃ t', (moveTable tableId newX newY tables)[i]? = some t' ∧
      t'.x = clampX newX ∧ t'.y = clampY newY ∧
      inBounds t'.x t'.y ∧
      (inBounds newX newY → t'.x = newX ∧ t'.y = newY) ∧
      (∀ qx qy, inBounds qx qy →
        dist2 t'.x t'.y newX newY ≤ dist2 qx qy newX newY) := by
  refine ⟨moveTableTable tableId newX newY t, ?_, ?_, ?_, ?_, ?_, ?_⟩
  · rw [moveTable, List.getElem?_map, hget]; rfl
  · rw [moveTableTable, if_pos hid]
  · rw [moveTableTable, if_pos hid]
  · rw [moveTableTable, if_pos hid]
    refine ⟨le_max_left _ _, max_le (by norm_num) (min_le_left _ _),
      le_max_left _ _, max_le (by norm_num) (min_le_left _ _)⟩
  · rintro ⟨h1, h2, h3, h4⟩
    rw [moveTableTable, if_pos hid]
    constructor
    · show clampX newX = newX
      rw [clampX, min_eq_right h2, max_eq_right h1]
    · show clampY newY = newY
      rw [clampY, min_eq_right h4, max_eq_right h3]
  · rintro qx qy ⟨h1, h2, h3, h4⟩
    rw [moveTableTable, if_pos hid]
    exact add_le_add (clamp_coord_nearest 50 1150 newX qx h1 h2)
      (clamp_coord_nearest 50 750 newY qy h3 h4)

/-- Witness for moveTable_clamps_to_nearest: dragging the only table of a
one-table layout to the out-of-bounds target (2000, -5). -/
theorem moveTable_clamps_to_nearest_witness :
    ([createTable 1 100 100][0]? = some (createTable 1 100 100)) ∧
    ((createTable 1 100 100).id = "table-1") ∧
    (∃ t', (moveTable "table-1" 2000 (-5) [createTable 1 100 100])[0]? = some t' ∧
      t'.x = clampX 2000 ∧ t'.y = clampY (-5) ∧
      inBounds t'.x t'.y ∧
      (inBounds 2000 (-5) → t'.x = (2000 : ℚ) ∧ t'.y = (-5 : ℚ)) ∧
      (∀ qx qy, inBounds qx qy →
        dist2 t'.x t'.y 2000 (-5) ≤ dist2 qx qy 2000 (-5))) := by
  refine ⟨rfl, rfl, ?_⟩
  exact moveTable_clamps_to_nearest [createTable 1 100 100] "table-1" 2000 (-5) 0
    (createTable 1 100 100) rfl rfl

/-- Row of the guest_checkins store as loaded into state by loadCheckins
(EventCheckIn.tsx lines 185-204). The query orders by checked_in_at
descending, so in the in-memory list the most recent record for a name is
the first record for that name. -/
structure CheckIn where
  id : String
  guest_name : String
  table_number : ℕ
  checked_in_at : String
  checked_out_at : Option String
deriving Repr, DecidableEq

/-- JavaScript String.prototype.toLowerCase, embedded as a character-wise
map (the guest names involved are ASCII, where Char.toLower agrees with the
JavaScript function). -/
def toLowerStr (s : String) : String := String.mk (s.data.map Char.toLower)

/-- JavaScript String.prototype.trim: drop whitespace from both ends. -/
def trimStr (s : String) : String :=
  String.mk (((s.data.dropWhile Char.isWhitespace).reverse.dropWhile
    Char.isWhitespace).reverse)

/-- The name normalization used throughout EventCheckIn.tsx:
name.toLowerCase().trim(). -/
def normalizeName (s : String) : String := trimStr (toLowerStr s)

/-- isGuestCheckedIn from EventCheckIn.tsx lines 206-212 (identical in the
part_003 revision): some record for the normalized name has no check-out
timestamp. -/
def isGuestCheckedIn (guestName : String) (checkins : List CheckIn) : Bool :=
  let normalizedName := normalizeName guestName
  checkins.any (fun c =>
    normalizeName c.guest_name == normalizedName && c.checked_out_at.isNone)

/-- Spec-side definition for stating C4: the most recent check-in record for
a name is the first matching record of the descending-ordered list. -/
def mostRecentCheckIn (guestName : String) (checkins : List CheckIn) : Option CheckIn :=
  (checkins.filter (fun c =>
    normalizeName c.guest_name == normalizeName guestName)).head?

/-- Spec-side definition for stating C4: the most recent check-in record for
the name exists and has no check-out timestamp. -/
def mostRecentOpen (guestName : String) (checkins : List CheckIn) : Bool :=
  match mostRecentCheckIn guestName checkins with
  | some c => c.checked_out_at.isNone
  | none => false

/-- Check-in log with a closed most-recent record for Jane on top of an older
record that was never closed (this state is reachable: the revision of
handleCheckIn without guards can check a guest in twice, and handleCheckOut
closes only the first open record of the descending list). -/
def staleOpenLog : List CheckIn :=
  [{ id := "1"
     guest_name := "Jane"
     table_number := 1
     checked_in_at := "2025-09-08T20:00:00Z"
     checked_out_at := some "2025-09-08T21:00:00Z" },
   { id := "0"
     guest_name := "Jane"
     table_number := 1
     checked_in_at := "2025-09-08T18:00:00Z"
     checked_out_at := none }]

/-- C4 counterexample — the code reports Jane as currently checked in even
though her most recent check-in record carries a check-out timestamp, so
"reported checked in iff the most recent record has no check-out" is false
on this log. -/
theorem checkedIn_not_iff_most_recent_open :
    isGuestCheckedIn "Jane" staleOpenLog = true ∧
    mostRecentOpen "Jane" staleOpenLog = false := by
  decide

/-- C4 amended — a guest is reported as currently checked in iff SOME
check-in record for that name (case-insensitive, trimmed) has no check-out
timestamp; the code quantifies over all records, not only the most recent
one. -/
theorem checkedIn_iff_some_open_record (guestName : String) (checkins : List CheckIn) :
    isGuestCheckedIn guestName checkins = true ↔
      ∃ c ∈ checkins,
        normalizeName c.guest_name = normalizeName guestName ∧ c.checked_out_at = none := by
  simp [isGuestCheckedIn, List.any_eq_true, Bool.and_eq_true,
    Option.isNone_iff_eq_none]

/-- Guest of the check-in view (Guest interface of EventCheckIn.tsx):
tableNumber is undefined when no seat of any table carries the guest's
name. -/
structure Guest where
  name : String
  email : Option String
  tableNumber : Option ℕ
deriving Repr, DecidableEq

/-- Row inserted into guest_checkins by a check-in (the checked_in_at
timestamp is filled in by the database and is not part of the insert). -/
structure CheckInInsert where
  guest_name : String
  table_number : ℕ
  checked_in_by : String
deriving Repr, DecidableEq

/-- handleCheckIn from src/pages/EventCheckIn.tsx lines 214-242: no
validation at all; inserts a row with table_number = guest.tableNumber || 0
(getD 0) and reports no error (a success toast follows). The first component
is the guest_checkins store after the call, the second the user-facing error
message, none when the check-in went through. -/
def handleCheckIn (guest : Guest) (log : List CheckInInsert) :
    List CheckInInsert × Option String :=
  (log ++ [{ guest_name := guest.name
             table_number := guest.tableNumber.getD 0
             checked_in_by := "admincode@modivc.com" }], none)

/-- handleCheckIn from the part_003 revision, lines 215-289: rejects a guest
who is already checked in, rejects a guest whose tableNumber is falsy
(undefined or 0), and only then inserts. -/
def handleCheckInValidated (guest : Guest) (checkins : List CheckIn)
    (log : List CheckInInsert) : List CheckInInsert × Option String :=
  if isGuestCheckedIn guest.name checkins then
    (log, some "Already Checked In")
  else if guest.tableNumber.getD 0 = 0 then
    (log, some "No Table Assigned")
  else
    (log ++ [{ guest_name := trimStr guest.name
               table_number := guest.tableNumber.getD 0
               checked_in_by := "admincode@modivc.com" }], none)

/-- Guest with no table assignment, used below. -/
def janeNoTable : Guest := { name := "Jane", email := none, tableNumber := none }

/-- C5 counterexample — in the revision at src/pages/EventCheckIn.tsx,
checking in a guest with no table assignment is NOT rejected: a record with
table number 0 is appended to the log and no error is reported. -/
theorem checkin_without_table_inserts_row :
    handleCheckIn janeNoTable [] =
      ([{ guest_name := "Jane"
          table_number := 0
          checked_in_by := "admincode@modivc.com" }], none) := rfl

/-- C5 amended — in the part_003 revision of handleCheckIn, checking in a
guest with no table assignment is rejected with a user-facing error and the
check-in log is unchanged. -/
theorem checkin_validated_rejects_no_table (guest : Guest) (checkins : List CheckIn)
    (log : List CheckInInsert) (hnone : guest.tableNumber = none) :
    (handleCheckInValidated guest checkins log).1 = log ∧
    (handleCheckInValidated guest checkins log).2.isSome = true := by
  cases hb : isGuestCheckedIn guest.name checkins <;>
    simp [handleCheckInValidated, hb, hnone]

/-- Witness for checkin_validated_rejects_no_table at a concrete guest with
no table assignment and an empty log. -/
theorem checkin_validated_rejects_no_table_witness :
    (janeNoTable.tableNumber = none) ∧
    (handleCheckInValidated janeNoTable [] []).1 = [] ∧
    (handleCheckInValidated janeNoTable [] []).2.isSome = true := by
  refine ⟨rfl, ?_, ?_⟩
  · exact (checkin_validated_rejects_no_table janeNoTable [] [] rfl).1
  · exact (checkin_validated_rejects_no_table janeNoTable [] [] rfl).2

/-- Per-seat body of assignSeat (TableManager.tsx lines 543-547): the
matching seat receives the given guest fields (spread with guestName, tag,
note), every other seat is untouched. The guest name argument is the string
passed by the form (possibly empty, which clears the assignment). -/
def assignSeatSeat (seatIdArg : String) (guestName : String) (tag note : Option String)
    (seat : Seat) : Seat :=
  if seat.id = seatIdArg then
    { seat with guestName := some guestName, tag := tag, note := note }
  else seat

/-- Per-table body of assignSeat (TableManager.tsx lines 539-551). -/
def assignSeatTable (tableId seatIdArg : String) (guestName : String)
    (tag note : Option String) (table : Table) : Table :=
  if table.id = tableId then
    { table with seats := table.seats.map (assignSeatSeat seatIdArg guestName tag note) }
  else table

/-- assignSeat from TableManager.tsx lines 538-563, acting on the
collection. -/
def assignSeat (tableId seatIdArg : String) (guestName : String)
    (tag note : Option String) (tables : List Table) : List Table :=
  tables.map (assignSeatTable tableId seatIdArg guestName tag note)

/-- C10 — assignSeat only changes the guestName, tag and note of the
targeted seat: the collection keeps its length, every table keeps its id,
number, label, position and seat count, non-matching tables are untouched,
every seat keeps its id and angle, non-targeted seats are untouched, and the
targeted seat receives exactly the given guest fields. -/
theorem assignSeat_frame (tables : List Table) (tableId seatIdArg : String)
    (guestName : String) (tag note : Option String) :
    (assignSeat tableId seatIdArg guestName tag note tables).length = tables.length ∧
    ∀ (i : ℕ) (t t' : Table), tables[i]? = some t →
      (assignSeat tableId seatIdArg guestName tag note tables)[i]? = some t' →
      t'.id = t.id ∧ t'.number = t.number ∧ t'.label = t.label ∧
      t'.x = t.x ∧ t'.y = t.y ∧ t'.seats.length = t.seats.length ∧
      (¬ t.id = tableId → t' = t) ∧
      ∀ (j : ℕ) (s s' : Seat), t.seats[j]? = some s → t'.seats[j]? = some s' →
        s'.id = s.id ∧ s'.angle = s.angle ∧
        (¬ (t.id = tableId ∧ s.id = seatIdArg) → s' = s) ∧
        (t.id = tableId → s.id = seatIdArg →
          s'.guestName = some guestName ∧ s'.tag = tag ∧ s'.note = note) := by
  constructor
  · simp [assignSeat]
  · intro i t t' hget hget'
    rw [assignSeat, List.getElem?_map, hget] at hget'
    have ht' : t' = assignSeatTable tableId seatIdArg guestName tag note t :=
      (Option.some.inj hget').symm
    subst ht'
    by_cases hid : t.id = tableId
    · rw [assignSeatTable, if_pos hid]
      refine ⟨rfl, rfl, rfl, rfl, rfl, by simp, fun h => absurd hid h, ?_⟩
      intro j s s' hs hs'
      simp only at hs'
      rw [List.getElem?_map, hs] at hs'
      have hs'' : s' = assignSeatSeat seatIdArg guestName tag note s :=
        (Option.some.inj hs').symm
      subst hs''
      by_cases hsid : s.id = seatIdArg
      · rw [assignSeatSeat, if_pos hsid]
        exact ⟨rfl, rfl, fun h => absurd ⟨hid, hsid⟩ h, fun _ _ => ⟨rfl, rfl, rfl⟩⟩
      · rw [assignSeatSeat, if_neg hsid]
        exact ⟨rfl, rfl, fun _ => rfl, fun _ h => absurd h hsid⟩
    · rw [assignSeatTable, if_neg hid]
      refine ⟨rfl, rfl, rfl, rfl, rfl, rfl, fun _ => rfl, ?_⟩
      intro j s s' hs hs'
      have hss' : s = s' := Option.some.inj (hs.symm.trans hs')
      subst hss'
      exact ⟨rfl, rfl, fun _ => rfl, fun h => absurd h hid⟩

/-- Two-table layout used by concrete witnesses below. -/
def guestTables : List Table := [createTable 1 100 100, createTable 2 300 100]

/-- Witness for assignSeat_frame: assigning Jane to seat 2 of table 1 in a
concrete two-table layout keeps the skeleton of the collection and writes
exactly the given guest fields into the targeted seat. -/
theorem assignSeat_frame_witness :
    (guestTables[0]? = some (createTable 1 100 100)) ∧
    ((assignSeat "table-1" (seatId 1 2) "Jane" (some "VIP") none guestTables)[0]? =
      some (assignSeatTable "table-1" (seatId 1 2) "Jane" (some "VIP") none
        (createTable 1 100 100))) ∧
    ((assignSeatTable "table-1" (seatId 1 2) "Jane" (some "VIP") none
        (createTable 1 100 100)).id = (createTable 1 100 100).id) ∧
    ((assignSeatTable "table-1" (seatId 1 2) "Jane" (some "VIP") none
        (createTable 1 100 100)).number = (createTable 1 100 100).number) ∧
    ((assignSeatTable "table-1" (seatId 1 2) "Jane" (some "VIP") none
        (createTable 1 100 100)).seats[2]? =
      some { id := seatId 1 2, angle := (((2 : ℕ) : ℚ) * 360) / 10,
             guestName := some "Jane", tag := some "VIP", note := none }) := by
  refine ⟨rfl, rfl, ?_, ?_, by rfl⟩
  · exact ((assignSeat_frame guestTables "table-1" (seatId 1 2) "Jane" (some "VIP")
      none).2 0 (createTable 1 100 100) (assignSeatTable "table-1" (seatId 1 2)
      "Jane" (some "VIP") none (createTable 1 100 100)) rfl rfl).1
  · exact ((assignSeat_frame guestTables "table-1" (seatId 1 2) "Jane" (some "VIP")
      none).2 0 (createTable 1 100 100) (assignSeatTable "table-1" (seatId 1 2)
      "Jane" (some "VIP") none (createTable 1 100 100)) rfl rfl).2.1

/-- True when the second list occurs as a contiguous run inside the first
list read backwards-compatibly with JavaScript String.prototype.includes. -/
def hasSubstring (needle : List Char) : List Char → Bool
  | [] => needle.isEmpty
  | c :: rest => needle.isPrefixOf (c :: rest) || hasSubstring needle rest

/-- JavaScript hay.includes(needle) on strings. -/
def strIncludes (hay needle : String) : Bool := hasSubstring needle.data hay.data

/-- Seat predicate of searchGuest (TableManager.tsx lines 567-569):
seat.guestName?.toLowerCase().includes(query.toLowerCase()), with an
undefined guest name yielding false. -/
def seatMatches (query : String) (s : Seat) : Bool :=
  match s.guestName with
  | some g => strIncludes (toLowerStr g) (toLowerStr query)
  | none => false

/-- Table predicate of searchGuest: some seat of the table matches. -/
def tableMatches (query : String) (t : Table) : Bool :=
  t.seats.any (seatMatches query)

/-- Observable outcome of searchGuest: the selected table after the call,
whether the view was scrolled to a table, and the toast messages shown (the
source shows none in this function). -/
structure SearchOutcome where
  selectedTable : Option String
  scrolled : Bool
  toasts : List String
deriving Repr, DecidableEq

/-- searchGuest from TableManager.tsx lines 565-583: find the first table
(in iteration order) with a matching seat; when found, select it and scroll
the view to it; when nothing matches, the function does nothing at all - it
keeps the selection, does not scroll and shows no message. -/
def searchGuest (query : String) (tables : List Table)
    (selectedTable : Option String) : SearchOutcome :=
  match tables.find? (tableMatches query) with
  | some t => { selectedTable := some t.id, scrolled := true, toasts := [] }
  | none => { selectedTable := selectedTable, scrolled := false, toasts := [] }

lemma find?_eq_some_of_first {α} (p : α → Bool) :
    ∀ (l : List α) (i : ℕ) (t : α), l[i]? = some t → p t = true →
      (∀ (k : ℕ) (u : α), k < i → l[k]? = some u → p u = false) →
      l.find? p = some t := by
  intro l
  induction l with
  | nil => intro i t h; simp at h
  | cons a rest ih =>
      intro i t hget hp hearlier
      cases i with
      | zero =>
          have ha : a = t := by simpa using hget
          subst ha
          simp [List.find?_cons_of_pos _ hp]
      | succ i' =>
          have hpa : p a = false := hearlier 0 a (Nat.succ_pos i') (by simp)
          rw [List.find?_cons_of_neg _ (by simp [hpa])]
          refine ih i' t (by simpa using hget) hp ?_
          intro k u hk hu
          exact hearlier (k + 1) u (Nat.succ_lt_succ hk) (by simpa using hu)

/-- C9 counterexample — searching a query that no guest name contains leaves
the selection unchanged but shows NO user-visible indication at all: the
outcome of searchGuest is the complete no-op outcome (no scroll, no toast),
so no "no results" state is shown, contrary to the claim. -/
theorem search_no_match_is_silent :
    searchGuest "Jane" guestTables (some "table-2") =
      { selectedTable := some "table-2", scrolled := false, toasts := [] } := by
  decide

/-- C9 amended — when no seat matches the query (case-insensitive
substring), searchGuest keeps the current selection and produces no
feedback whatsoever; when some table has a matching seat, the first such
table in iteration order becomes selected and the view scrolls to it. -/
theorem searchGuest_first_match_or_unchanged (query : String) (tables : List Table)
    (sel : Option String) :
    ((∀ t ∈ tables, tableMatches query t = false) →
      searchGuest query tables sel =
        { selectedTable := sel, scrolled := false, toasts := [] }) ∧
    (∀ (i : ℕ) (t : Table), tables[i]? = some t → tableMatches query t = true →
      (∀ (k : ℕ) (u : Table), k < i → tables[k]? = some u → tableMatches query u = false) →
      searchGuest query tables sel =
        { selectedTable := some t.id, scrolled := true, toasts := [] }) := by
  constructor
  · intro hnone
    have hfind : tables.find? (tableMatches query) = none := by
      rw [List.find?_eq_none]
      intro x hx
      simp [hnone x hx]
    rw [searchGuest, hfind]
  · intro i t hget hp hearlier
    have hfind : tables.find? (tableMatches query) = some t :=
      find?_eq_some_of_first (tableMatches query) tables i t hget hp hearlier
    rw [searchGuest, hfind]

/-- Table whose only seat is assigned to Jane Doe, used by the witness. -/
def janeTable : Table :=
  { id := "table-7"
    number := 7
    label := "Table 7"
    x := 400
    y := 300
    seats := [{ id := seatId 7 0, angle := 0, guestName := some "Jane Doe"
                tag := none, note := none }] }

/-- Layout whose first table matches the query jane, used by the witness. -/
def janeTables : List Table := [janeTable, createTable 2 300 100]

/-- Witness for searchGuest_first_match_or_unchanged: a query with no match
on a guestless layout keeps the selection, and the query jane selects the
first matching table of a layout containing Jane Doe. -/
theorem searchGuest_first_match_or_unchanged_witness :
    (∀ t ∈ guestTables, tableMatches "jane" t = false) ∧
    searchGuest "jane" guestTables (some "table-2") =
      { selectedTable := some "table-2", scrolled := false, toasts := [] } ∧
    (janeTables[0]? = some janeTable) ∧
    (tableMatches "jane" janeTable = true) ∧
    searchGuest "jane" janeTables none =
      { selectedTable := some "table-7", scrolled := true, toasts := [] } := by
  refine ⟨by decide, ?_, rfl, by decide, ?_⟩
  · exact (searchGuest_first_match_or_unchanged "jane" guestTables (some "table-2")).1
      (by decide)
  · exact (searchGuest_first_match_or_unchanged "jane" janeTables none).2 0 janeTable
      rfl (by decide) (fun k u hk _ => absurd hk (Nat.not_lt_zero k))

/-- JSON value, the shape produced by JSON.stringify and consumed by
JSON.parse in exportLayout / importLayout. An object is a list of key-value
pairs in property order; a key whose value is undefined is omitted by
JSON.stringify, which is modelled by not emitting the pair. -/
inductive JsonValue where
  | str : String → JsonValue
  | num : ℚ → JsonValue
  | arr : List JsonValue → JsonValue
  | obj : List (String × JsonValue) → JsonValue

/-- Emit an optional string property: JSON.stringify omits properties whose
value is undefined. -/
def optStrField (k : String) : Option String → List (String × JsonValue)
  | some v => [(k, JsonValue.str v)]
  | none => []

/-- JSON.stringify of a Seat, properties in the declaration order of the
Seat interface. -/
def encodeSeat (s : Seat) : JsonValue :=
  JsonValue.obj ([("id", JsonValue.str s.id), ("angle", JsonValue.num s.angle)] ++
    optStrField "guestName" s.guestName ++ optStrField "tag" s.tag ++
    optStrField "note" s.note)

/-- JSON.stringify of a Table, properties in the declaration order of the
Table interface (selected is never set and therefore never serialized). -/
def encodeTable (t : Table) : JsonValue :=
  JsonValue.obj [("id", JsonValue.str t.id), ("number", JsonValue.num (t.number : ℚ)),
    ("label", JsonValue.str t.label), ("x", JsonValue.num t.x),
    ("y", JsonValue.num t.y), ("seats", JsonValue.arr (t.seats.map encodeSeat))]

/-- exportLayout from TableManager.tsx lines 585-595: JSON.stringify of the
whole in-memory collection (the downloadable document, at the JSON level). -/
def exportLayout (tables : List Table) : JsonValue :=
  JsonValue.arr (tables.map encodeTable)

/-- Property access on a parsed JSON object (undefined when absent). -/
def getField (j : JsonValue) (k : String) : Option JsonValue :=
  match j with
  | JsonValue.obj kvs => (kvs.find? (fun kv => kv.1 == k)).map (fun kv => kv.2)
  | _ => none

/-- Property read as a string. -/
def getStr (j : JsonValue) (k : String) : Option String :=
  match getField j k with
  | some (JsonValue.str s) => some s
  | _ => none

/-- Property read as a number. -/
def getNum (j : JsonValue) (k : String) : Option ℚ :=
  match getField j k with
  | some (JsonValue.num q) => some q
  | _ => none

/-- Property read as an array. -/
def getArr (j : JsonValue) (k : String) : Option (List JsonValue) :=
  match getField j k with
  | some (JsonValue.arr l) => some l
  | _ => none

/-- Read a JSON number back as the natural table number it was serialized
from. -/
def decodeNat (q : ℚ) : Option ℕ :=
  if q.den = 1 ∧ 0 ≤ q.num then some q.num.toNat else none

/-- Read a parsed JSON value back as a Seat, accessing exactly the fields
the application reads on an imported seat (missing optional fields become
undefined). -/
def decodeSeat (j : JsonValue) : Option Seat :=
  (getStr j "id").bind (fun sid =>
    (getNum j "angle").map (fun angle =>
      { id := sid, angle := angle, guestName := getStr j "guestName",
        tag := getStr j "tag", note := getStr j "note" }))

/-- Decode every element of a JSON array, failing if any element fails. -/
def decodeList {α : Type} (f : JsonValue → Option α) : List JsonValue → Option (List α)
  | [] => some []
  | j :: rest =>
      match f j, decodeList f rest with
      | some a, some tail => some (a :: tail)
      | _, _ => none

/-- Read a parsed JSON value back as a Table. -/
def decodeTable (j : JsonValue) : Option Table :=
  (getStr j "id").bind (fun tid =>
    (getNum j "number").bind (fun numQ =>
      (decodeNat numQ).bind (fun number =>
        (getStr j "label").bind (fun label =>
          (getNum j "x").bind (fun x =>
            (getNum j "y").bind (fun y =>
              (getArr j "seats").bind (fun seatsJson =>
                (decodeList decodeSeat seatsJson).map (fun seats =>
                  { id := tid, number := number, label := label,
                    x := x, y := y, seats := seats }))))))))

/-- Parse the imported document into a table collection. -/
def importLayoutDoc (j : JsonValue) : Option (List Table) :=
  match j with
  | JsonValue.arr l => decodeList decodeTable l
  | _ => none

/-- importLayout from TableManager.tsx lines 597-615: a successfully parsed
document replaces the in-memory collection wholesale (no validation); a
parse failure leaves the previous collection untouched and reports
"Invalid file format". -/
def importLayout (j : JsonValue) (tables : List Table) : List Table :=
  match importLayoutDoc j with
  | some imported => imported
  | none => tables

lemma decodeNat_natCast (n : ℕ) : decodeNat ((n : ℕ) : ℚ) = some n := by
  simp [decodeNat, Rat.den_natCast, Rat.num_natCast]

lemma decodeSeat_encodeSeat (s : Seat) : decodeSeat (encodeSeat s) = some s := by
  rcases s with ⟨sid, angle, g, tg, nt⟩
  cases g <;> cases tg <;> cases nt <;> rfl

lemma decodeList_encodeSeat (seats : List Seat) :
    decodeList decodeSeat (seats.map encodeSeat) = some seats := by
  induction seats with
  | nil => rfl
  | cons s rest ih => simp [decodeList, decodeSeat_encodeSeat s, ih]

lemma decodeTable_encodeTable (t : Table) : decodeTable (encodeTable t) = some t := by
  have h1 : getStr (encodeTable t) "id" = some t.id := rfl
  have h2 : getNum (encodeTable t) "number" = some ((t.number : ℕ) : ℚ) := rfl
  have h3 : getStr (encodeTable t) "label" = some t.label := rfl
  have h4 : getNum (encodeTable t) "x" = some t.x := rfl
  have h5 : getNum (encodeTable t) "y" = some t.y := rfl
  have h6 : getArr (encodeTable t) "seats" = some (t.seats.map encodeSeat) := rfl
  rw [decodeTable, h1, h2, h3, h4, h5, h6]
  simp [decodeNat_natCast, decodeList_encodeSeat]

lemma decodeList_encodeTable (tables : List Table) :
    decodeList decodeTable (tables.map encodeTable) = some tables := by
  induction tables with
  | nil => rfl
  | cons t rest ih => simp [decodeList, decodeTable_encodeTable t, ih]

/-- C6 — Export-then-import round trip: parsing the exported document
reproduces the exact in-memory Table/Seat collection, field for field (no
field is regenerated on this path: importLayout stores the parsed tables
as they are), regardless of what collection was in memory before
importing. -/
theorem export_import_roundtrip (tables current : List Table) :
    importLayoutDoc (exportLayout tables) = some tables ∧
    importLayout (exportLayout tables) current = tables := by
  have h : importLayoutDoc (exportLayout tables) = some tables := by
    rw [exportLayout, importLayoutDoc]
    exact decodeList_encodeTable tables
  exact ⟨h, by rw [importLayout, h]⟩

/-- Save status indicator of the part_002 revision (saveStatus state:
idle / saving / saved / error). -/
inductive SaveStatus where
  | idle
  | saving
  | saved
  | error
deriving Repr, DecidableEq

/-- Observable trace of one saveTableToDatabase call: how many write
attempts ran, the waits (in milliseconds) inserted between consecutive
attempts, the save status it leaves behind, and the returned boolean. -/
structure SaveTrace where
  attempts : ℕ
  delays : List ℕ
  status : SaveStatus
  success : Bool
deriving Repr, DecidableEq

/-- Retry loop of saveTableToDatabase (part_002 lines 326-492) over the list
of remaining attempt numbers. fails says whether the write of attempt a
fails. A failing attempt that is not the last waits 200 * attempt
milliseconds and retries; a failing last attempt sets the error status and
returns false; a successful attempt sets the saved status and returns
true. -/
def saveTableRun (fails : ℕ → Bool) : List ℕ → SaveTrace
  | [] => { attempts := 0, delays := [], status := SaveStatus.idle, success := false }
  | a :: rest =>
      if fails a then
        match rest with
        | [] => { attempts := 1, delays := [], status := SaveStatus.error, success := false }
        | b :: more =>
            let tr := saveTableRun fails (b :: more)
            { attempts := tr.attempts + 1, delays := 200 * a :: tr.delays,
              status := tr.status, success := tr.success }
      else { attempts := 1, delays := [], status := SaveStatus.saved, success := true }

/-- In-memory component state touched by saveTableToDatabase: the table
collection and the save status indicator. -/
structure EditorState where
  tables : List Table
  saveStatus : SaveStatus
deriving Repr, DecidableEq

/-- saveTableToDatabase from part_002 lines 326-492: runs the write attempts
numbered 1..retries (the source default is retries = 3) and updates only the
save status; the function never writes the tables state, so the in-memory
collection is left exactly as it was (no rollback). -/
def saveTableToDatabase (fails : ℕ → Bool) (retries : ℕ) (st : EditorState) :
    EditorState × SaveTrace :=
  let tr := saveTableRun fails (List.range' 1 retries)
  ({ st with saveStatus := tr.status }, tr)

/-- C7 — When every write attempt fails, saveTableToDatabase with the
source's retry count 3 attempts the write exactly 3 times, waits 200 and
then 400 milliseconds between consecutive attempts (linearly increasing,
200 * attempt), surfaces the error status, returns failure, and leaves the
in-memory table collection unchanged. -/
theorem save_retries_three_with_linear_backoff (fails : ℕ → Bool) (st : EditorState)
    (hfail : ∀ a, fails a = true) :
    ((saveTableToDatabase fails 3 st).1.tables = st.tables) ∧
    ((saveTableToDatabase fails 3 st).2.attempts = 3) ∧
    ((saveTableToDatabase fails 3 st).2.delays = [200 * 1, 200 * 2]) ∧
    ((saveTableToDatabase fails 3 st).2.status = SaveStatus.error) ∧
    ((saveTableToDatabase fails 3 st).2.success = false) := by
  have hrange : List.range' 1 3 = [1, 2, 3] := rfl
  simp [saveTableToDatabase, hrange, saveTableRun, hfail 1, hfail 2, hfail 3]

/-- Witness for save_retries_three_with_linear_backoff: the oracle on which
every attempt fails, applied to a concrete editor state. -/
theorem save_retries_three_with_linear_backoff_witness :
    (∀ a : ℕ, (fun _ : ℕ => true) a = true) ∧
    ((saveTableToDatabase (fun _ => true) 3
        { tables := guestTables, saveStatus := SaveStatus.idle }).1.tables = guestTables) ∧
    ((saveTableToDatabase (fun _ => true) 3
        { tables := guestTables, saveStatus := SaveStatus.idle }).2.attempts = 3) ∧
    ((saveTableToDatabase (fun _ => true) 3
        { tables := guestTables, saveStatus := SaveStatus.idle }).2.delays = [200 * 1, 200 * 2]) ∧
    ((saveTableToDatabase (fun _ => true) 3
        { tables := guestTables, saveStatus := SaveStatus.idle }).2.status = SaveStatus.error) := by
  have h := save_retries_three_with_linear_backoff (fun _ => true)
    { tables := guestTables, saveStatus := SaveStatus.idle } (fun _ => rfl)
  exact ⟨fun _ => rfl, h.1, h.2.1, h.2.2.1, h.2.2.2.1⟩

/-- Default layout seeded by initializeDefaultTables in TableManager.tsx
lines 113-142: two rows of ten tables and one row of four, on the 1200 x 800
canvas. -/
def defaultTables : List Table :=
  ((List.range 10).map (fun i => createTable (i + 1) (((i : ℚ) + 1) * (1200 / 11)) 150)) ++
  ((List.range 10).map (fun i => createTable (i + 11) (((i : ℚ) + 1) * (1200 / 11)) 350)) ++
  ((List.range 4).map (fun i => createTable (i + 21) (((i : ℚ) + 1) * (1200 / 5)) 550))

/-- addTable from TableManager.tsx lines 502-511: create a table numbered
one above the maximum existing number, at (600, 400), and append it (the
fold models Math.max over the nonempty collection). -/
def addTable (tables : List Table) : List Table :=
  tables ++ [createTable ((tables.map Table.number).foldr max 0 + 1) 600 400]

/-- deleteTable from TableManager.tsx lines 513-536: drop the table from the
collection. -/
def deleteTable (tableId : String) (tables : List Table) : List Table :=
  tables.filter (fun t => t.id != tableId)

/-- The seat-count invariant of the specification: every table holds between
1 and 14 seats. -/
def seatCountInv (tables : List Table) : Prop :=
  ∀ t ∈ tables, 1 ≤ t.seats.length ∧ t.seats.length ≤ 14

/-- Table collections reachable through the editor's operations exactly as
the source implements them: the seeded default layout, table creation and
deletion, seat addition and removal, table moves, seat assignment, and the
importing of any successfully parsed document (the source performs no
validation on imported documents). -/
inductive Reachable : List Table → Prop where
  | init : Reachable defaultTables
  | addTableStep (tables : List Table) :
      Reachable tables → Reachable (addTable tables)
  | addSeatStep (tableId : String) (tables : List Table) :
      Reachable tables → Reachable (addSeat tableId tables)
  | removeSeatStep (tableId : String) (tables : List Table) :
      Reachable tables → Reachable (removeSeat tableId tables)
  | deleteTableStep (tableId : String) (tables : List Table) :
      Reachable tables → Reachable (deleteTable tableId tables)
  | moveTableStep (tableId : String) (x y : ℚ) (tables : List Table) :
      Reachable tables → Reachable (moveTable tableId x y tables)
  | assignSeatStep (tableId seatIdArg guestName : String) (tag note : Option String)
      (tables : List Table) :
      Reachable tables → Reachable (assignSeat tableId seatIdArg guestName tag note tables)
  | importStep (doc : JsonValue) (tables : List Table) :
      Reachable tables → Reachable (importLayout doc tables)

/-- Table collections reachable when import is restricted to documents whose
tables already satisfy the seat-count invariant (the amendment C8 needs:
the source itself accepts any parsed document). -/
inductive ReachableChecked : List Table → Prop where
  | init : ReachableChecked defaultTables
  | addTableStep (tables : List Table) :
      ReachableChecked tables → ReachableChecked (addTable tables)
  | addSeatStep (tableId : String) (tables : List Table) :
      ReachableChecked tables → ReachableChecked (addSeat tableId tables)
  | removeSeatStep (tableId : String) (tables : List Table) :
      ReachableChecked tables → ReachableChecked (removeSeat tableId tables)
  | deleteTableStep (tableId : String) (tables : List Table) :
      ReachableChecked tables → ReachableChecked (deleteTable tableId tables)
  | moveTableStep (tableId : String) (x y : ℚ) (tables : List Table) :
      ReachableChecked tables → ReachableChecked (moveTable tableId x y tables)
  | assignSeatStep (tableId seatIdArg guestName : String) (tag note : Option String)
      (tables : List Table) :
      ReachableChecked tables →
      ReachableChecked (assignSeat tableId seatIdArg guestName tag note tables)
  | importStep (doc : JsonValue) (tables imported : List Table) :
      importLayoutDoc doc = some imported → seatCountInv imported →
      ReachableChecked tables → ReachableChecked imported

/-- Table with an empty seat list, encodable into a perfectly well-formed
layout document. -/
def zeroSeatTable : Table :=
  { id := "table-1", number := 1, label := "Table 1", x := 100, y := 100, seats := [] }

lemma importLayout_exportLayout (tables current : List Table) :
    importLayout (exportLayout tables) current = tables := by
  have h : importLayoutDoc (exportLayout tables) = some tables := by
    rw [exportLayout, importLayoutDoc]
    exact decodeList_encodeTable tables
  rw [importLayout, h]

/-- C8 counterexample — importing the (well-formed) document that encodes a
single zero-seat table is an editor operation reaching a collection that
violates the 1-to-14 seat-count invariant: importLayout performs no
validation. -/
theorem import_breaks_seat_count_invariant :
    Reachable (importLayout (exportLayout [zeroSeatTable]) defaultTables) ∧
    importLayout (exportLayout [zeroSeatTable]) defaultTables = [zeroSeatTable] ∧
    ¬ seatCountInv [zeroSeatTable] := by
  refine ⟨Reachable.importStep _ _ Reachable.init, importLayout_exportLayout _ _, ?_⟩
  intro h
  rcases h zeroSeatTable (List.mem_singleton_self _) with ⟨h1, -⟩
  simp [zeroSeatTable] at h1

lemma createTable_seat_count (n : ℕ) (x y : ℚ) : (createTable n x y).seats.length = 10 := by
  simp [createTable]

lemma seatCountInv_defaultTables : seatCountInv defaultTables := by
  intro t ht
  rw [defaultTables] at ht
  simp only [List.mem_append, List.mem_map, List.mem_range] at ht
  rcases ht with (⟨i, -, rfl⟩ | ⟨i, -, rfl⟩) | ⟨i, -, rfl⟩ <;>
    simp [createTable_seat_count]

lemma addSeatTable_seat_count (tableId : String) (t : Table)
    (h : 1 ≤ t.seats.length ∧ t.seats.length ≤ 14) :
    1 ≤ (addSeatTable tableId t).seats.length ∧
      (addSeatTable tableId t).seats.length ≤ 14 := by
  rw [addSeatTable]
  split
  · rename_i hcond
    have h14 := hcond.2
    simp only [redistribute_length, List.length_append, List.length_singleton]
    omega
  · exact h

lemma removeSeatTable_seat_count (tableId : String) (t : Table)
    (h : 1 ≤ t.seats.length ∧ t.seats.length ≤ 14) :
    1 ≤ (removeSeatTable tableId t).seats.length ∧
      (removeSeatTable tableId t).seats.length ≤ 14 := by
  rw [removeSeatTable]
  split
  · rename_i hcond
    have h1 := hcond.2
    simp only [redistribute_length, List.length_dropLast]
    omega
  · exact h

lemma moveTableTable_seats (tableId : String) (x y : ℚ) (t : Table) :
    (moveTableTable tableId x y t).seats = t.seats := by
  rw [moveTableTable]; split <;> rfl

lemma assignSeatTable_seat_count (tableId seatIdArg guestName : String)
    (tag note : Option String) (t : Table) :
    (assignSeatTable tableId seatIdArg guestName tag note t).seats.length =
      t.seats.length := by
  rw [assignSeatTable]
  split
  · simp
  · rfl

/-- C8 amended — every table collection reachable through the editor's
operations keeps every seat count between 1 and 14, provided imported
documents themselves satisfy the invariant (the source-faithful import
accepts any parsed document and is the single operation that can break the
invariant, as the counterexample shows). -/
theorem reachable_seat_count_invariant (tables : List Table)
    (h : ReachableChecked tables) : seatCountInv tables := by
  induction h with
  | init => exact seatCountInv_defaultTables
  | addTableStep tables _ ih =>
      intro t ht
      rw [addTable] at ht
      rcases List.mem_append.mp ht with hmem | hnew
      · exact ih t hmem
      · rcases List.mem_singleton.mp hnew with rfl
        simp [createTable_seat_count]
  | addSeatStep tableId tables _ ih =>
      intro t ht
      rcases List.mem_map.mp ht with ⟨t0, hmem, rfl⟩
      exact addSeatTable_seat_count tableId t0 (ih t0 hmem)
  | removeSeatStep tableId tables _ ih =>
      intro t ht
      rcases List.mem_map.mp ht with ⟨t0, hmem, rfl⟩
      exact removeSeatTable_seat_count tableId t0 (ih t0 hmem)
  | deleteTableStep tableId tables _ ih =>
      intro t ht
      exact ih t (List.mem_of_mem_filter ht)
  | moveTableStep tableId x y tables _ ih =>
      intro t ht
      rcases List.mem_map.mp ht with ⟨t0, hmem, rfl⟩
      rw [moveTableTable_seats]
      exact ih t0 hmem
  | assignSeatStep tableId seatIdArg guestName tag note tables _ ih =>
      intro t ht
      rcases List.mem_map.mp ht with ⟨t0, hmem, rfl⟩
      rw [assignSeatTable_seat_count]
      exact ih t0 hmem
  | importStep doc tables imported _ hinv _ _ =>
      exact hinv

/-- Witness for reachable_seat_count_invariant: the seeded default layout is
reachable and satisfies the invariant. -/
theorem reachable_seat_count_invariant_witness :
    ReachableChecked defaultTables ∧ seatCountInv defaultTables :=
  ⟨ReachableChecked.init,
    reachable_seat_count_invariant defaultTables ReachableChecked.init⟩
